import Mathlib

/-
Verification of the predictive-and-alerting pipeline of the air-pollution
minibot repository.

The development is a shallow embedding of the relevant Python sources:

  * resources/spike.py     : spike detection, baseline, trend, cooldown and
                             the dashboard orchestration cycle
  * resources/email.py     : the alert dispatcher guard logic
  * resources/settings.py  : the shape of the latest user-settings row
  * ai/prediction.py       : the linear AQI forecast engine and its public
                             entry point compute_aqi_forecast

Machine floats of the source are modelled as exact rationals; timestamps are
modelled as rationals counting seconds.  Quantities that the source obtains
through math.sqrt (RMSE and the forecast margin) are carried by their squares
in the executable data, together with noncomputable real-valued views using
Real.sqrt.  Store reads that may raise in Python are modelled as Except
values; each Python function that swallows an exception pattern-matches on
that Except value exactly where the corresponding try block sits in the
source.
-/

/-- Sensor keys tracked by the system; SENSOR_KEYS in resources/spike.py. -/
inductive SensorKey where
  | aqi
  | pm25
  | pm10
  | temp
  | humidity
  | toxic
  | flammable
  | smoke
  | voc
deriving DecidableEq

/-- Iteration order of the sensor keys, as in the SENSOR_KEYS list of
resources/spike.py. -/
def SENSOR_KEYS : List SensorKey :=
  [SensorKey.aqi, SensorKey.pm25, SensorKey.pm10, SensorKey.temp,
   SensorKey.humidity, SensorKey.toxic, SensorKey.flammable,
   SensorKey.smoke, SensorKey.voc]

/-- Absolute spike thresholds, DEFAULT_ABSOLUTE_THRESHOLDS in
resources/spike.py. -/
def DEFAULT_ABSOLUTE_THRESHOLDS : SensorKey → Rat
  | SensorKey.aqi => 150
  | SensorKey.pm25 => 35
  | SensorKey.pm10 => 50
  | SensorKey.temp => 32
  | SensorKey.humidity => 75
  | SensorKey.toxic => 1
  | SensorKey.flammable => 1
  | SensorKey.smoke => 1
  | SensorKey.voc => 300

/-- Minimal increase over baseline required by the relative rule,
MIN_RELATIVE_INCREASE in resources/spike.py (0.2 is the rational 1/5). -/
def MIN_RELATIVE_INCREASE : SensorKey → Rat
  | SensorKey.aqi => 25
  | SensorKey.pm25 => 10
  | SensorKey.pm10 => 15
  | SensorKey.temp => 2
  | SensorKey.humidity => 5
  | SensorKey.toxic => 1/5
  | SensorKey.flammable => 1/5
  | SensorKey.smoke => 1/5
  | SensorKey.voc => 50

/-- One set of sensor readings at one time; the Reading dataclass of
resources/spike.py.  The values mapping sends each sensor key to its float
value when present and coercible, and to none otherwise (dict lookup plus
coerce float in the source). -/
structure Reading where
  timestamp : Rat
  values : SensorKey → Option Rat

/-- Latest user-settings row as returned by get_latest_settings in
resources/settings.py: email (possibly NULL), notifications as a bool, and
forecast_duration (possibly NULL).  The refresh rate and the row timestamp
are not consumed by the verified core and are omitted. -/
structure UserSettings where
  email : Option String
  notifications : Bool
  forecast_duration : Option Int
deriving DecidableEq

/-- Merged absolute-threshold table of detect_spiking_sensors: the caller
overrides, where given, win over the defaults (dict update in the source). -/
def mergedThresholds (overrides : SensorKey → Option Rat) (key : SensorKey) : Rat :=
  (overrides key).getD (DEFAULT_ABSOLUTE_THRESHOLDS key)

/-- Per-key body of the loop of detect_spiking_sensors in resources/spike.py:
a key spikes when its current value is present and at or above the absolute
threshold, or, failing that, when a positive baseline is present and the
current value reaches baseline times relative factor with an increase of at
least the per-key minimum delta. -/
def spikeCheck (currentValues : SensorKey → Option Rat)
    (baselineValues : Option (SensorKey → Option Rat))
    (thresholds : SensorKey → Rat) (relativeFactor : Rat) (key : SensorKey) : Bool :=
  match currentValues key with
  | none => false
  | some current =>
    if thresholds key ≤ current then true
    else
      match baselineValues with
      | none => false
      | some baselineMap =>
        match baselineMap key with
        | none => false
        | some baseline =>
          decide (0 < baseline) && decide (baseline * relativeFactor ≤ current) &&
            decide (MIN_RELATIVE_INCREASE key ≤ current - baseline)

/-- detect_spiking_sensors of resources/spike.py: the keys of SENSOR_KEYS,
in order, that pass spikeCheck against the merged threshold table. -/
def detect_spiking_sensors (currentValues : SensorKey → Option Rat)
    (baselineValues : Option (SensorKey → Option Rat))
    (overrides : SensorKey → Option Rat) (relativeFactor : Rat) : List SensorKey :=
  SENSOR_KEYS.filter
    (spikeCheck currentValues baselineValues (mergedThresholds overrides) relativeFactor)

/-- compute_baseline of resources/spike.py: with fewer than two readings no
baseline exists; otherwise each key is mapped to the mean of its present
values over all readings but the last, and the result is none when no key
has any value. -/
def compute_baseline (history : List Reading) : Option (SensorKey → Option Rat) :=
  if history.length < 2 then none
  else
    let older := history.dropLast
    let samples : SensorKey → List Rat := fun key => older.filterMap (fun r => r.values key)
    if SENSOR_KEYS.all (fun key => (samples key).isEmpty) then none
    else
      some (fun key =>
        if (samples key).isEmpty then none
        else some ((samples key).sum / ((samples key).length : Rat)))

/-- Result record of compute_aqi_trend in resources/spike.py. -/
structure TrendInfo where
  slope : Rat
  current_aqi : Rat
  predicted_peak : Rat
deriving DecidableEq

/-- compute_aqi_trend of resources/spike.py: slope between the first and the
last reading carrying an aqi value, in AQI per minute, projected forward by
the given window; none when fewer than two readings exist, when no aqi value
exists, or when the two carrying readings are not strictly ordered in time. -/
def compute_aqi_trend (history : List Reading) (defaultWindowMinutes : Int) :
    Option TrendInfo :=
  if history.length < 2 then none
  else
    let samples := history.filterMap
      (fun r => (r.values SensorKey.aqi).map (fun v => (r.timestamp, v)))
    match samples.head?, samples.getLast? with
    | some firstSample, some lastSample =>
      let deltaMinutes := (lastSample.1 - firstSample.1) / 60
      if deltaMinutes ≤ 0 then none
      else
        let slope := (lastSample.2 - firstSample.2) / deltaMinutes
        some ⟨slope, lastSample.2,
              lastSample.2 + slope * (defaultWindowMinutes : Rat)⟩
    | _, _ => none

/-- Cooldown duration in minutes; get_cooldown_minutes_from_settings of
resources/spike.py.  A raising settings store or a missing row acts as an
empty dict, a missing forecast_duration makes the int conversion raise and
fall back to the default, and the result is clamped to at least one minute. -/
def get_cooldown_minutes_from_settings
    (settingsRes : Except Unit (Option UserSettings)) (defaultMinutes : Int) : Int :=
  let duration : Option Int :=
    match settingsRes with
    | Except.error _ => none
    | Except.ok none => none
    | Except.ok (some s) => s.forecast_duration
  match duration with
  | none => max defaultMinutes 1
  | some v => max v 1

/-- Cooldown gate of handle_new_reading_for_dashboard in resources/spike.py:
with no recorded last send the cooldown is elapsed; otherwise the cycle is
suppressed exactly when the elapsed minutes since the last send are strictly
below the cooldown. -/
def cooldownSuppressed (lastSent : Option Rat) (now : Rat) (cooldownMinutes : Int) : Bool :=
  match lastSent with
  | none => false
  | some t => decide ((now - t) / 60 < (cooldownMinutes : Rat))

/-- Observable outcome of one call of send_spike_alert_if_enabled in
resources/email.py: whether it reported a successful send, whether message
composition and transport were reached at all, and whether the settings read
inside it raised (that read is not guarded in the source, so the exception
would propagate). -/
structure DispatchResult where
  sent : Bool
  attempted : Bool
  raised : Bool
deriving DecidableEq

/-- send_spike_alert_if_enabled of resources/email.py, with the message
composition and the SMTP transport abstracted into the transportOk flag: no
settings row, an absent or empty recipient, or disabled notifications
suppress before anything is composed; otherwise composition and transport
run and their success is reported (any exception there is caught and
reported as a failed send). -/
def send_spike_alert_if_enabled
    (settingsRes : Except Unit (Option UserSettings)) (transportOk : Bool) : DispatchResult :=
  match settingsRes with
  | Except.error _ => ⟨false, false, true⟩
  | Except.ok none => ⟨false, false, false⟩
  | Except.ok (some s) =>
    match s.email with
    | none => ⟨false, false, false⟩
    | some addr =>
      if addr = "" then ⟨false, false, false⟩
      else if s.notifications then ⟨transportOk, true, false⟩
      else ⟨false, false, false⟩

/-- Recipient-and-notifications guard of the dispatcher (guard four of the
orchestration cycle): a settings row exists, its email is present and
non-empty, and notifications are enabled. -/
def guard4Passes (settingsRes : Except Unit (Option UserSettings)) : Bool :=
  match settingsRes with
  | Except.ok (some s) =>
    match s.email with
    | some addr => decide (addr ≠ "") && s.notifications
    | none => false
  | _ => false

/-- External state consumed by one orchestration cycle: the latest
user-settings row (or a raising settings store), the persisted last-sent
alert timestamp as parsed by get_last_alert_time (none when absent or not
parseable), the current wall-clock time, and whether the message build and
SMTP transport would succeed.  The settings store is read twice per cycle in
the source; the model takes one stable value for the cycle. -/
structure OrchEnv where
  settingsRes : Except Unit (Option UserSettings)
  lastSent : Option Rat
  now : Rat
  transportOk : Bool

/-- Observable outcome of one orchestration cycle: the returned flag, the
trend computation (none when compute_aqi_trend was never invoked, some of
its result when it was), whether a dispatch was attempted, whether the cycle
raised, and the persisted last-sent timestamp after the cycle. -/
structure CycleResult where
  sent : Bool
  trendOut : Option (Option TrendInfo)
  dispatchAttempted : Bool
  raised : Bool
  lastSentAfter : Option Rat
deriving DecidableEq

/-- Default reading used only to express indexing from the back, as the
source writes history[-1] after the emptiness guard. -/
def emptyReading : Reading := ⟨0, fun _ => none⟩

/-- handle_new_reading_for_dashboard of resources/spike.py: abort on empty
history; abort while the cooldown is running; detect spikes from the last
reading against the baseline of the older ones and abort when none spike;
then compute the trend, call the dispatcher, and persist the current time as
last-sent exactly when the dispatcher reported success. -/
def handle_new_reading_for_dashboard (env : OrchEnv) (history : List Reading)
    (overrides : SensorKey → Option Rat) (relativeFactor : Rat) : CycleResult :=
  if history.isEmpty then ⟨false, none, false, false, env.lastSent⟩
  else
    let cooldownMinutes := get_cooldown_minutes_from_settings env.settingsRes 30
    if cooldownSuppressed env.lastSent env.now cooldownMinutes then
      ⟨false, none, false, false, env.lastSent⟩
    else
      let current := (history.getLastD emptyReading).values
      let baseline := compute_baseline history
      let spiking := detect_spiking_sensors current baseline overrides relativeFactor
      if spiking.isEmpty then ⟨false, none, false, false, env.lastSent⟩
      else
        let trend := compute_aqi_trend history cooldownMinutes
        let d := send_spike_alert_if_enabled env.settingsRes env.transportOk
        ⟨d.sent, some trend, d.attempted, d.raised,
         if d.sent then some env.now else env.lastSent⟩

/-- One history point consumed by the forecast engine: an integer unix
timestamp and the derived AQI value, as built by history_points in
ai/prediction.py. -/
structure HPoint where
  ts : Int
  aqi : Rat
deriving DecidableEq

/-- Default history point used for head and last lookups that the source
performs only after establishing at least three points. -/
def defaultHPoint : HPoint := ⟨0, 0⟩

/-- AQI column of the history, the ys list of linear_forecast. -/
def aqiValues (history : List HPoint) : List Rat :=
  history.map (fun p => p.aqi)

/-- Times re-centered to the first sample, the xs0 list of linear_forecast
in ai/prediction.py. -/
def centeredTimes (history : List HPoint) : List Rat :=
  history.map (fun p => ((p.ts - (history.headD defaultHPoint).ts : Int) : Rat))

/-- Regression denominator n times sum of squares minus square of sum, the
denom of linear_forecast. -/
def regressionDenom (history : List HPoint) : Rat :=
  let xs0 := centeredTimes history
  (history.length : Rat) * (xs0.map (fun x => x * x)).sum - xs0.sum * xs0.sum

/-- Closed-form regression slope, the a of linear_forecast. -/
def slopeOf (history : List HPoint) : Rat :=
  let xs0 := centeredTimes history
  let ys := aqiValues history
  ((history.length : Rat) * (List.zipWith (fun x y => x * y) xs0 ys).sum
      - xs0.sum * ys.sum) / regressionDenom history

/-- Closed-form regression intercept, the b of linear_forecast. -/
def interceptOf (history : List HPoint) : Rat :=
  ((aqiValues history).sum - slopeOf history * (centeredTimes history).sum)
    / (history.length : Rat)

/-- In-sample residuals of the fit, actual minus fitted, as computed by the
residual loop of linear_forecast. -/
def residualsOf (history : List HPoint) : List Rat :=
  List.zipWith (fun x y => y - (slopeOf history * x + interceptOf history))
    (centeredTimes history) (aqiValues history)

/-- Mean absolute residual, the mae of linear_forecast. -/
def maeOf (history : List HPoint) : Rat :=
  ((residualsOf history).map (fun r => |r|)).sum / ((residualsOf history).length : Rat)

/-- Square of the root-mean-square residual: the mean squared residual.  The
source stores math.sqrt of this value; the development carries the square,
which is rational, and takes Real.sqrt in the real-valued view below. -/
def rmseSqOf (history : List HPoint) : Rat :=
  ((residualsOf history).map (fun r => r * r)).sum / ((residualsOf history).length : Rat)

/-- Square of the per-point margin; the source computes
margin = rmse / sqrt(n) when the history is non-empty and margin = rmse
otherwise, so the square is the mean squared residual over n. -/
def marginSqOf (history : List HPoint) : Rat :=
  if 0 < history.length then rmseSqOf history / (history.length : Rat)
  else rmseSqOf history

/-- Number of forecast steps, the steps of linear_forecast: Python int()
applied to the true division horizon times sixty over step truncates toward
zero, which on integer operands is t-division. -/
def stepsOf (horizonMinutes stepSeconds : Int) : Int :=
  max 1 (Int.tdiv (horizonMinutes * 60) stepSeconds)

/-- One forecast point of the public result: timestamp, clamped AQI value,
and the squared symmetric margin reported in the error field. -/
structure FPoint where
  ts : Int
  aqi : Rat
  errorSq : Rat
deriving DecidableEq

/-- Forecast point list of linear_forecast: one point per step, at the last
history timestamp plus the step index times the step length, carrying the
regression value clamped to the 0..500 band and the common margin. -/
def forecastPoints (history : List HPoint) (horizonMinutes stepSeconds : Int) :
    List FPoint :=
  let t0 := (history.headD defaultHPoint).ts
  let lastTs := (history.getLastD defaultHPoint).ts
  (List.range (stepsOf horizonMinutes stepSeconds).toNat).map (fun (i : Nat) =>
    let ts := lastTs + ((i : Int) + 1) * stepSeconds
    let y := slopeOf history * ((ts - t0 : Int) : Rat) + interceptOf history
    ⟨ts, max 0 (min 500 y), marginSqOf history⟩)

/-- Quadruple returned by linear_forecast: forecast list, mae, and the
squares standing for rmse and margin. -/
structure FitResult where
  forecast : List FPoint
  mae : Rat
  rmseSq : Rat
  marginSq : Rat
deriving DecidableEq

/-- linear_forecast of ai/prediction.py: fewer than three points or a zero
regression denominator give the empty quadruple; otherwise the fitted
forecast together with its error summary. -/
def linear_forecast (history : List HPoint) (horizonMinutes stepSeconds : Int) :
    FitResult :=
  if history.length < 3 then ⟨[], 0, 0, 0⟩
  else if regressionDenom history = 0 then ⟨[], 0, 0, 0⟩
  else
    ⟨forecastPoints history horizonMinutes stepSeconds,
     maeOf history, rmseSqOf history, marginSqOf history⟩

/-- Real-valued RMSE of the fit, math.sqrt of the mean squared residual. -/
noncomputable def rmseOf (history : List HPoint) : Real :=
  Real.sqrt ((rmseSqOf history : Rat) : Real)

/-- Real-valued per-point margin of the fit. -/
noncomputable def marginOf (history : List HPoint) : Real :=
  Real.sqrt ((marginSqOf history : Rat) : Real)

/-- Real-valued error band of one forecast point, the error field of the
source. -/
noncomputable def FPoint.errorValue (p : FPoint) : Real :=
  Real.sqrt ((p.errorSq : Rat) : Real)

/-- Forecast horizon in minutes chosen by compute_aqi_forecast: the latest
forecast_duration when the settings read succeeds, a row exists and the
value is truthy (present and non-zero), sixty otherwise. -/
def forecastHorizonMinutes (settingsRes : Except Unit (Option UserSettings)) : Int :=
  match settingsRes with
  | Except.error _ => 60
  | Except.ok none => 60
  | Except.ok (some s) =>
    match s.forecast_duration with
    | none => 60
    | some v => if v = 0 then 60 else v

/-- JSON-dict shape returned by compute_aqi_forecast: option-valued fields
model dict keys that are present only in some of the three result shapes.
The rmseSq and margin_errorSq fields carry the squares of the reported rmse
and margin_error numbers. -/
structure ApiResult where
  ok : Bool
  reason : Option String
  error : Option String
  horizon_minutes : Option Int
  history_count : Option Nat
  forecast_count : Option Nat
  mae : Option Rat
  rmseSq : Option Rat
  margin_errorSq : Option Rat
  margin_method : Option String
  forecast : List FPoint
deriving DecidableEq

/-- State of the two stores consumed by compute_aqi_forecast: the latest
settings row (or a raising settings store) and the AQI history points built
from the reading store (or a raising reading store, whose message string
becomes the error field). -/
structure PipelineEnv where
  settingsRes : Except Unit (Option UserSettings)
  historyRes : Except String (List HPoint)

/-- compute_aqi_forecast of ai/prediction.py: the horizon falls back to
sixty on a raising settings store, a missing row or a falsy value; a raising
history store is caught and reported in the error shape; fewer than three
points give the not-enough-history shape; otherwise the fitted forecast is
wrapped in the success shape. -/
def compute_aqi_forecast (env : PipelineEnv) : ApiResult :=
  let horizon := forecastHorizonMinutes env.settingsRes
  match env.historyRes with
  | Except.error msg =>
    ⟨false, none, some msg, none, none, none, none, none, none, none, []⟩
  | Except.ok history =>
    if history.length < 3 then
      ⟨false, some "not_enough_history", none, none, some history.length,
       none, none, none, none, none, []⟩
    else
      let r := linear_forecast history horizon 60
      ⟨true, none, none, some horizon, some history.length,
       some r.forecast.length, some r.mae, some r.rmseSq, some r.marginSq,
       some "rmse_over_sqrt_n", r.forecast⟩

/-- Failure shape documented for insufficient history: ok false, the
not-enough-history reason, a history count, an empty forecast and no error
key. -/
def isNotEnoughHistoryShape (r : ApiResult) : Prop :=
  r.ok = false ∧ r.reason = some "not_enough_history" ∧
    r.history_count.isSome = true ∧ r.forecast = [] ∧ r.error = none

/-- Failure shape documented for any other failure: ok false, an error
message, an empty forecast and no reason key. -/
def isErrorShape (r : ApiResult) : Prop :=
  r.ok = false ∧ r.error.isSome = true ∧ r.forecast = [] ∧ r.reason = none

/-- Success shape of the public forecast result, with every documented key
present and the fixed margin-method tag. -/
def isSuccessShape (r : ApiResult) : Prop :=
  r.ok = true ∧ r.horizon_minutes.isSome = true ∧ r.history_count.isSome = true ∧
    r.forecast_count.isSome = true ∧ r.mae.isSome = true ∧ r.rmseSq.isSome = true ∧
    r.margin_errorSq.isSome = true ∧ r.margin_method = some "rmse_over_sqrt_n" ∧
    r.reason = none ∧ r.error = none

/-- Spike set computed by one orchestration cycle: the detector applied to
the values of the newest reading and the baseline of the older ones. -/
def cycleSpikes (history : List Reading) (overrides : SensorKey → Option Rat)
    (relativeFactor : Rat) : List SensorKey :=
  detect_spiking_sensors (history.getLastD emptyReading).values
    (compute_baseline history) overrides relativeFactor

/-- Cooldown minutes of one orchestration cycle, with the default of thirty
used at the call site. -/
def cycleCooldownMinutes (env : OrchEnv) : Int :=
  get_cooldown_minutes_from_settings env.settingsRes 30

/-- Cycle outcome of an aborted cycle: nothing computed, nothing dispatched,
the persisted timestamp untouched. -/
def noEffectCycle (env : OrchEnv) : CycleResult :=
  ⟨false, none, false, false, env.lastSent⟩

/-- Current-values mapping of the worked spike example: pm25 at forty and
every other sensor absent. -/
def pm25OnlyValues : SensorKey → Option Rat :=
  fun key => if key = SensorKey.pm25 then some 40 else none

/-- Three collinear history points with distinct timestamps, a perfect fit
used to instantiate the fitted-forecast theorems. -/
def H1fit : List HPoint := [⟨0, 10⟩, ⟨60, 20⟩, ⟨120, 30⟩]

/-- Four collinear history points extending H1fit, a perfect fit with a
larger sample count. -/
def H2fit : List HPoint := [⟨0, 10⟩, ⟨60, 20⟩, ⟨120, 30⟩, ⟨180, 40⟩]

/-- Store state with three history points sharing one timestamp: enough
points for a fit but a zero regression denominator. -/
def degenerateEnv : PipelineEnv :=
  ⟨Except.ok none, Except.ok [⟨5, 10⟩, ⟨5, 20⟩, ⟨5, 30⟩]⟩

/-- Orchestration environment in which the first three guards can pass while
the fourth fails: notifications are enabled but no recipient address is
stored. -/
def noRecipientEnv : OrchEnv :=
  ⟨Except.ok (some ⟨none, true, some 30⟩), none, 1000, true⟩

/-- Two-reading history whose newest reading spikes on pm25 by the absolute
rule and which carries a well-defined AQI trend. -/
def spikingHistory : List Reading :=
  [⟨0, fun key => if key = SensorKey.aqi then some 10 else none⟩,
   ⟨60, fun key =>
     if key = SensorKey.pm25 then some 40
     else if key = SensorKey.aqi then some 20 else none⟩]

/-- Orchestration environment with a stored recipient, notifications on, an
elapsed cooldown and a working transport. -/
def deliverableEnv : OrchEnv :=
  ⟨Except.ok (some ⟨some "user at example.com", true, some 30⟩), none, 1000, true⟩

theorem mem_SENSOR_KEYS (key : SensorKey) : key ∈ SENSOR_KEYS := by
  cases key <;> simp [SENSOR_KEYS]

theorem SENSOR_KEYS_nodup : SENSOR_KEYS.Nodup := by decide

theorem send_alert_guard_failed (settingsRes : Except Unit (Option UserSettings))
    (transportOk : Bool) (h : guard4Passes settingsRes = false) :
    (send_spike_alert_if_enabled settingsRes transportOk).sent = false ∧
      (send_spike_alert_if_enabled settingsRes transportOk).attempted = false := by
  cases settingsRes with
  | error e => simp [send_spike_alert_if_enabled]
  | ok s =>
    cases s with
    | none => simp [send_spike_alert_if_enabled]
    | some st =>
      cases he : st.email with
      | none => simp [send_spike_alert_if_enabled, he]
      | some addr =>
        by_cases ha : addr = ""
        · simp [send_spike_alert_if_enabled, he, ha]
        · cases hn : st.notifications
          · simp [send_spike_alert_if_enabled, he, ha, hn]
          · exfalso
            simp [guard4Passes, he, ha, hn] at h

theorem send_alert_sent_iff (settingsRes : Except Unit (Option UserSettings))
    (transportOk : Bool) :
    ((send_spike_alert_if_enabled settingsRes transportOk).sent = true →
        transportOk = true ∧
          (send_spike_alert_if_enabled settingsRes transportOk).attempted = true) ∧
      ((send_spike_alert_if_enabled settingsRes transportOk).attempted = true →
        (send_spike_alert_if_enabled settingsRes transportOk).sent = transportOk) := by
  cases settingsRes with
  | error e => simp [send_spike_alert_if_enabled]
  | ok s =>
    cases s with
    | none => simp [send_spike_alert_if_enabled]
    | some st =>
      cases he : st.email with
      | none => simp [send_spike_alert_if_enabled, he]
      | some addr =>
        by_cases ha : addr = "" <;> cases hn : st.notifications <;>
          simp [send_spike_alert_if_enabled, he, ha, hn]

/-- C4: the cooldown decision permits a send when no last-sent timestamp
exists, and otherwise suppresses exactly when the elapsed minutes since the
last send are strictly below the cooldown; the cooldown minutes are the
latest forecast-duration value clamped to at least one minute, or thirty
when the setting is unset or the settings store fails; after a send at T
with a thirty-minute cooldown, a check five minutes later suppresses and a
check thirty-one minutes later permits. -/
theorem cooldown_decision_spec :
    (∀ (e : Option String) (nt : Bool) (v : Int),
        get_cooldown_minutes_from_settings (Except.ok (some ⟨e, nt, some v⟩)) 30 = max v 1)
    ∧ (∀ (e : Option String) (nt : Bool),
        get_cooldown_minutes_from_settings (Except.ok (some ⟨e, nt, none⟩)) 30 = 30)
    ∧ get_cooldown_minutes_from_settings (Except.ok none) 30 = 30
    ∧ get_cooldown_minutes_from_settings (Except.error ()) 30 = 30
    ∧ (∀ (now : Rat) (cd : Int), cooldownSuppressed none now cd = false)
    ∧ (∀ (t now : Rat) (cd : Int),
        cooldownSuppressed (some t) now cd = true ↔ (now - t) / 60 < (cd : Rat))
    ∧ (∀ T : Rat,
        cooldownSuppressed (some T) (T + 5 * 60) 30 = true
        ∧ cooldownSuppressed (some T) (T + 31 * 60) 30 = false) := by
  refine ⟨fun e nt v => rfl, fun e nt => rfl, rfl, rfl, fun now cd => rfl,
    fun t now cd => by simp [cooldownSuppressed], fun T => ⟨?_, ?_⟩⟩
  · simp only [cooldownSuppressed, decide_eq_true_iff]
    have : (T + 5 * 60 - T) / 60 = 5 := by ring
    rw [this]
    norm_num
  · simp only [cooldownSuppressed, decide_eq_false_iff_not]
    have : (T + 31 * 60 - T) / 60 = 31 := by ring
    rw [this]
    norm_num

/-- C10: a stored forecast_duration of zero makes the forecast entry point
fall back to the sixty-minute default horizon, because the value is tested
for truthiness, while the cooldown derived from the same stored value is
clamped to one minute. -/
theorem zero_duration_consumers_diverge :
    ∀ (e : Option String) (nt : Bool),
      forecastHorizonMinutes (Except.ok (some ⟨e, nt, some 0⟩)) = 60
      ∧ get_cooldown_minutes_from_settings (Except.ok (some ⟨e, nt, some 0⟩)) 30 = 1 := by
  intro e nt
  exact ⟨rfl, rfl⟩

/-- C1: the public forecast entry point is a total function from any store
state, raising included, to one of the three documented result shapes, and
whenever the history store yields fewer than three points the result is
exactly the not-enough-history record with the observed count and an empty
forecast. -/
theorem compute_aqi_forecast_total_shapes :
    ∀ env : PipelineEnv,
      (isSuccessShape (compute_aqi_forecast env)
        ∨ isNotEnoughHistoryShape (compute_aqi_forecast env)
        ∨ isErrorShape (compute_aqi_forecast env))
      ∧ ∀ pts : List HPoint, env.historyRes = Except.ok pts → pts.length < 3 →
          compute_aqi_forecast env =
            ⟨false, some "not_enough_history", none, none, some pts.length,
             none, none, none, none, none, []⟩ := by
  intro env
  obtain ⟨sr, hr⟩ := env
  cases hr with
  | error msg =>
    refine ⟨Or.inr (Or.inr ?_), ?_⟩
    · simp [compute_aqi_forecast, isErrorShape]
    · intro pts hok
      exact absurd hok (by simp)
  | ok history =>
    by_cases h3 : history.length < 3
    · refine ⟨Or.inr (Or.inl ?_), ?_⟩
      · simp [compute_aqi_forecast, isNotEnoughHistoryShape, h3]
      · intro pts hok hlen
        obtain rfl : history = pts := by simpa using hok
        simp [compute_aqi_forecast, h3]
    · refine ⟨Or.inl ?_, ?_⟩
      · simp [compute_aqi_forecast, isSuccessShape, h3]
      · intro pts hok hlen
        obtain rfl : history = pts := by simpa using hok
        exact absurd hlen h3

/-- Witness for C1: an empty history store state yields exactly the
not-enough-history shape with a zero count. -/
theorem compute_aqi_forecast_total_shapes_witness :
    compute_aqi_forecast ⟨Except.ok none, Except.ok []⟩ =
      ⟨false, some "not_enough_history", none, none, some 0,
       none, none, none, none, none, []⟩ :=
  (compute_aqi_forecast_total_shapes ⟨Except.ok none, Except.ok []⟩).2 [] rfl
    (by norm_num)

theorem linear_forecast_fitted (history : List HPoint) (hz s : Int)
    (h3 : ¬ history.length < 3) (hd : regressionDenom history ≠ 0) :
    linear_forecast history hz s =
      ⟨forecastPoints history hz s, maeOf history, rmseSqOf history,
       marginSqOf history⟩ := by
  simp [linear_forecast, h3, hd]

/-- Counterexample for C6: on three history points sharing one timestamp the
public result is the ok-true shape with an empty forecast, not the ok-false
not-enough-history shape of the insufficient-data case. -/
theorem degenerate_fit_public_shape_cex :
    (compute_aqi_forecast degenerateEnv).ok = true
    ∧ (compute_aqi_forecast degenerateEnv).reason = none
    ∧ (compute_aqi_forecast degenerateEnv).forecast = [] := by
  have hd : regressionDenom [(⟨5, 10⟩ : HPoint), ⟨5, 20⟩, ⟨5, 30⟩] = 0 := by
    norm_num [regressionDenom, centeredTimes, defaultHPoint]
  refine ⟨rfl, rfl, ?_⟩
  simp [compute_aqi_forecast, degenerateEnv, linear_forecast, hd]

/-- C6 amended: a zero regression denominator on three or more points still
yields an empty forecast, and at the engine level the returned quadruple is
the same one returned for insufficient history; the public result, however,
reports this case as ok true with a zero forecast count and no reason,
unlike the ok-false not-enough-history shape. -/
theorem degenerate_fit_empty_forecast :
    ∀ (env : PipelineEnv) (pts : List HPoint),
      env.historyRes = Except.ok pts → 3 ≤ pts.length → regressionDenom pts = 0 →
      (∀ hz s : Int,
        linear_forecast pts hz s = ⟨[], 0, 0, 0⟩
        ∧ linear_forecast pts hz s = linear_forecast [] hz s)
      ∧ (compute_aqi_forecast env).ok = true
      ∧ (compute_aqi_forecast env).forecast = []
      ∧ (compute_aqi_forecast env).forecast_count = some 0
      ∧ (compute_aqi_forecast env).reason = none := by
  intro env pts hok h3 hd
  have h3f : ¬ pts.length < 3 := by omega
  have hengine : ∀ hz s : Int,
      linear_forecast pts hz s = ⟨[], 0, 0, 0⟩
      ∧ linear_forecast pts hz s = linear_forecast [] hz s := by
    intro hz s
    constructor
    · simp [linear_forecast, h3f, hd]
    · simp [linear_forecast, h3f, hd]
  obtain ⟨sr, hr⟩ := env
  obtain rfl : hr = Except.ok pts := hok
  refine ⟨hengine, ?_, ?_, ?_, ?_⟩ <;>
    simp [compute_aqi_forecast, h3f, (hengine (forecastHorizonMinutes sr) 60).1]

/-- Witness for C6: the concrete identical-timestamp store state reaches the
degenerate branch and exhibits the amended behavior. -/
theorem degenerate_fit_empty_forecast_witness :
    (compute_aqi_forecast degenerateEnv).ok = true
    ∧ (compute_aqi_forecast degenerateEnv).forecast_count = some 0 := by
  have h := degenerate_fit_empty_forecast degenerateEnv
    [⟨5, 10⟩, ⟨5, 20⟩, ⟨5, 30⟩] rfl (by norm_num)
    (by norm_num [regressionDenom, centeredTimes, defaultHPoint])
  exact ⟨h.2.1, h.2.2.2.1⟩

theorem spikeCheck_eq_true_iff (cur : SensorKey → Option Rat)
    (base : Option (SensorKey → Option Rat)) (thr : SensorKey → Rat) (f : Rat)
    (k : SensorKey) :
    spikeCheck cur base thr f k = true ↔
      ∃ c, cur k = some c ∧
        (thr k ≤ c ∨
          ∃ bm b, base = some bm ∧ bm k = some b ∧ 0 < b ∧ b * f ≤ c ∧
            MIN_RELATIVE_INCREASE k ≤ c - b) := by
  cases hc : cur k with
  | none => simp [spikeCheck, hc]
  | some c =>
    by_cases ht : thr k ≤ c
    · simp only [spikeCheck, hc, if_pos ht]
      exact ⟨fun _ => ⟨c, rfl, Or.inl ht⟩, fun _ => trivial⟩
    · cases base with
      | none =>
        simp only [spikeCheck, hc, if_neg ht]
        constructor
        · intro h
          exact absurd h (by simp)
        · rintro ⟨c0, hc0, hor⟩
          obtain rfl : c0 = c := by injection hc0.symm
          rcases hor with h | ⟨bm, b, hbm, -⟩
          · exact absurd h ht
          · exact absurd hbm (by simp)
      | some bm =>
        cases hb : bm k with
        | none =>
          simp only [spikeCheck, hc, if_neg ht, hb]
          constructor
          · intro h
            exact absurd h (by simp)
          · rintro ⟨c0, hc0, hor⟩
            obtain rfl : c0 = c := by injection hc0.symm
            rcases hor with h | ⟨bm0, b, hbm0, hb0, -⟩
            · exact absurd h ht
            · obtain rfl : bm0 = bm := by injection hbm0.symm
              simp [hb] at hb0
        | some b =>
          simp only [spikeCheck, hc, if_neg ht, hb, Bool.and_eq_true,
            decide_eq_true_eq]
          constructor
          · rintro ⟨⟨h1, h2⟩, h3⟩
            exact ⟨c, rfl, Or.inr ⟨bm, b, rfl, hb, h1, h2, h3⟩⟩
          · rintro ⟨c0, hc0, hor⟩
            obtain rfl : c0 = c := by injection hc0.symm
            rcases hor with h | ⟨bm0, b0, hbm0, hb0, h1, h2, h3⟩
            · exact absurd h ht
            · obtain rfl : bm0 = bm := by injection hbm0.symm
              obtain rfl : b0 = b := by rw [hb] at hb0; injection hb0.symm
              exact ⟨⟨h1, h2⟩, h3⟩

/-- C5: a sensor key is flagged by detect_spiking_sensors exactly when it
carries a numeric current value that reaches its merged absolute threshold,
or a positive baseline exists for it with current at least baseline times
the relative factor and an increase of at least the per-sensor minimum
delta; the returned list never repeats a key, and the worked example with
only pm25 at forty and no baseline yields exactly the pm25 key. -/
theorem detect_spiking_sensors_spec :
    (∀ (cur : SensorKey → Option Rat) (base : Option (SensorKey → Option Rat))
        (ov : SensorKey → Option Rat) (f : Rat) (k : SensorKey),
      k ∈ detect_spiking_sensors cur base ov f ↔
        ∃ c, cur k = some c ∧
          (mergedThresholds ov k ≤ c ∨
            ∃ bm b, base = some bm ∧ bm k = some b ∧ 0 < b ∧ b * f ≤ c ∧
              MIN_RELATIVE_INCREASE k ≤ c - b))
    ∧ (∀ (cur : SensorKey → Option Rat) (base : Option (SensorKey → Option Rat))
        (ov : SensorKey → Option Rat) (f : Rat),
      (detect_spiking_sensors cur base ov f).Nodup)
    ∧ detect_spiking_sensors pm25OnlyValues none (fun _ => none) (7/5)
        = [SensorKey.pm25] := by
  refine ⟨?_, ?_, ?_⟩
  · intro cur base ov f k
    rw [detect_spiking_sensors, List.mem_filter]
    rw [show (k ∈ SENSOR_KEYS) = True from eq_true (mem_SENSOR_KEYS k)]
    rw [true_and]
    exact spikeCheck_eq_true_iff cur base (mergedThresholds ov) f k
  · intro cur base ov f
    exact SENSOR_KEYS_nodup.filter _
  · decide

theorem spikingHistory_spike_set_ne_nil :
    detect_spiking_sensors (spikingHistory.getLastD emptyReading).values
        (compute_baseline spikingHistory) (fun _ => none) (7/5) ≠ [] := by
  have hmem : SensorKey.pm25 ∈ detect_spiking_sensors
      (spikingHistory.getLastD emptyReading).values
      (compute_baseline spikingHistory) (fun _ => none) (7/5) := by
    rw [detect_spiking_sensors, List.mem_filter]
    refine ⟨mem_SENSOR_KEYS _, ?_⟩
    refine (spikeCheck_eq_true_iff _ _ _ _ _).mpr ⟨40, ?_, Or.inl ?_⟩
    · rfl
    · norm_num [mergedThresholds, DEFAULT_ABSOLUTE_THRESHOLDS]
  exact List.ne_nil_of_mem hmem

theorem handle_noRecipient_eval :
    handle_new_reading_for_dashboard noRecipientEnv spikingHistory
        (fun _ => none) (7/5)
      = ⟨false, some (compute_aqi_trend spikingHistory 30), false, false, none⟩ := by
  rw [handle_new_reading_for_dashboard]
  simp only [noRecipientEnv]
  rw [if_neg (by simp [spikingHistory])]
  simp only [cooldownSuppressed, get_cooldown_minutes_from_settings]
  rw [if_neg (by simp)]
  rw [if_neg (by simpa using spikingHistory_spike_set_ne_nil)]
  rfl

theorem handle_deliverable_eval :
    handle_new_reading_for_dashboard deliverableEnv spikingHistory
        (fun _ => none) (7/5)
      = ⟨true, some (compute_aqi_trend spikingHistory 30), true, false,
         some 1000⟩ := by
  rw [handle_new_reading_for_dashboard]
  simp only [deliverableEnv]
  rw [if_neg (by simp [spikingHistory])]
  simp only [cooldownSuppressed, get_cooldown_minutes_from_settings]
  rw [if_neg (by simp)]
  rw [if_neg (by simpa using spikingHistory_spike_set_ne_nil)]
  rfl

/-- Counterexample for C2: with notifications enabled but no stored
recipient, a cycle with a non-empty history, an elapsed cooldown and a
spiking sensor still computes the trend summary even though the fourth
guard fails, so the trend is not computed only after all four guards have
passed; no dispatch is attempted in that cycle. -/
theorem orchestration_trend_before_guard4_cex :
    (handle_new_reading_for_dashboard noRecipientEnv spikingHistory
        (fun _ => none) (7/5)).trendOut.isSome = true
    ∧ guard4Passes noRecipientEnv.settingsRes = false
    ∧ (handle_new_reading_for_dashboard noRecipientEnv spikingHistory
        (fun _ => none) (7/5)).dispatchAttempted = false := by
  rw [handle_noRecipient_eval]
  exact ⟨rfl, rfl, rfl⟩

/-- C2 amended: within one cycle the guards history non-empty, cooldown
elapsed and spike set non-empty are evaluated in that order and any failure
among them aborts the cycle with no side effect; once those three guards
pass the trend summary is computed, before the fourth guard, which the
dispatcher checks (notifications enabled and non-empty recipient); a failing
fourth guard still means no dispatch is attempted and no alert state is
written. -/
theorem orchestration_guard_stages :
    ∀ (env : OrchEnv) (history : List Reading) (ov : SensorKey → Option Rat)
      (f : Rat),
      (history.isEmpty = true →
        handle_new_reading_for_dashboard env history ov f = noEffectCycle env)
      ∧ (history.isEmpty = false →
        cooldownSuppressed env.lastSent env.now (cycleCooldownMinutes env) = true →
        handle_new_reading_for_dashboard env history ov f = noEffectCycle env)
      ∧ (history.isEmpty = false →
        cooldownSuppressed env.lastSent env.now (cycleCooldownMinutes env) = false →
        cycleSpikes history ov f = [] →
        handle_new_reading_for_dashboard env history ov f = noEffectCycle env)
      ∧ (history.isEmpty = false →
        cooldownSuppressed env.lastSent env.now (cycleCooldownMinutes env) = false →
        cycleSpikes history ov f ≠ [] →
        (handle_new_reading_for_dashboard env history ov f).trendOut
          = some (compute_aqi_trend history (cycleCooldownMinutes env)))
      ∧ (guard4Passes env.settingsRes = false →
        (handle_new_reading_for_dashboard env history ov f).dispatchAttempted = false
        ∧ (handle_new_reading_for_dashboard env history ov f).sent = false
        ∧ (handle_new_reading_for_dashboard env history ov f).lastSentAfter
            = env.lastSent) := by
  intro env history ov f
  refine ⟨?_, ?_, ?_, ?_, ?_⟩
  · intro he
    rw [handle_new_reading_for_dashboard, if_pos he]
    rfl
  · intro he hc
    rw [cycleCooldownMinutes] at hc
    rw [handle_new_reading_for_dashboard, if_neg (by rw [he]; exact Bool.false_ne_true)]
    rw [if_pos hc]
    rfl
  · intro he hc hs
    rw [cycleCooldownMinutes] at hc
    rw [cycleSpikes] at hs
    rw [handle_new_reading_for_dashboard, if_neg (by rw [he]; exact Bool.false_ne_true)]
    rw [if_neg (by rw [hc]; exact Bool.false_ne_true)]
    rw [if_pos (by simpa using hs)]
    rfl
  · intro he hc hs
    rw [cycleCooldownMinutes] at hc
    rw [cycleSpikes] at hs
    rw [cycleCooldownMinutes]
    rw [handle_new_reading_for_dashboard, if_neg (by rw [he]; exact Bool.false_ne_true)]
    rw [if_neg (by rw [hc]; exact Bool.false_ne_true)]
    rw [if_neg (by simpa using hs)]
  · intro h4
    have hsend := send_alert_guard_failed env.settingsRes env.transportOk h4
    by_cases he : history.isEmpty = true
    · rw [handle_new_reading_for_dashboard, if_pos he]
      exact ⟨rfl, rfl, rfl⟩
    · by_cases hc : cooldownSuppressed env.lastSent env.now
          (get_cooldown_minutes_from_settings env.settingsRes 30) = true
      · rw [handle_new_reading_for_dashboard, if_neg he, if_pos hc]
        exact ⟨rfl, rfl, rfl⟩
      · by_cases hs : detect_spiking_sensors (history.getLastD emptyReading).values
            (compute_baseline history) ov f = []
        · rw [handle_new_reading_for_dashboard, if_neg he, if_neg hc,
            if_pos (by simpa using hs)]
          exact ⟨rfl, rfl, rfl⟩
        · rw [handle_new_reading_for_dashboard, if_neg he, if_neg hc,
            if_neg (by simpa using hs)]
          refine ⟨hsend.2, hsend.1, ?_⟩
          simp [hsend.1]

/-- Witness for C2: an empty history aborts with no effect, and the
concrete missing-recipient cycle leaves the alert state untouched. -/
theorem orchestration_guard_stages_witness :
    handle_new_reading_for_dashboard noRecipientEnv [] (fun _ => none) (7/5)
      = noEffectCycle noRecipientEnv
    ∧ (handle_new_reading_for_dashboard noRecipientEnv spikingHistory
        (fun _ => none) (7/5)).lastSentAfter = noRecipientEnv.lastSent :=
  ⟨(orchestration_guard_stages noRecipientEnv [] (fun _ => none) (7/5)).1 rfl,
   ((orchestration_guard_stages noRecipientEnv spikingHistory (fun _ => none)
      (7/5)).2.2.2.2 rfl).2.2⟩

/-- C3: the persisted last-sent timestamp is set to the current cycle time
exactly when the cycle reports a successful dispatch; a cycle aborted by any
guard or a failed transport leaves it unchanged, a successful dispatch
implies the transport succeeded and was attempted, and whenever the
dispatcher is reached the reported send equals the transport outcome. -/
theorem alert_state_commit_spec :
    ∀ (env : OrchEnv) (history : List Reading) (ov : SensorKey → Option Rat)
      (f : Rat),
      ((handle_new_reading_for_dashboard env history ov f).lastSentAfter
        = if (handle_new_reading_for_dashboard env history ov f).sent = true
          then some env.now else env.lastSent)
      ∧ ((handle_new_reading_for_dashboard env history ov f).sent = true →
          env.transportOk = true
          ∧ (handle_new_reading_for_dashboard env history ov f).dispatchAttempted
              = true)
      ∧ ((handle_new_reading_for_dashboard env history ov f).dispatchAttempted
            = true →
          (handle_new_reading_for_dashboard env history ov f).sent
            = env.transportOk) := by
  intro env history ov f
  by_cases he : history.isEmpty = true
  · rw [handle_new_reading_for_dashboard, if_pos he]
    exact ⟨rfl, by intro h; exact absurd h (by simp), by intro h; exact absurd h (by simp)⟩
  · by_cases hc : cooldownSuppressed env.lastSent env.now
        (get_cooldown_minutes_from_settings env.settingsRes 30) = true
    · rw [handle_new_reading_for_dashboard, if_neg he, if_pos hc]
      exact ⟨rfl, by intro h; exact absurd h (by simp), by intro h; exact absurd h (by simp)⟩
    · by_cases hs : detect_spiking_sensors (history.getLastD emptyReading).values
          (compute_baseline history) ov f = []
      · rw [handle_new_reading_for_dashboard, if_neg he, if_neg hc,
          if_pos (by simpa using hs)]
        exact ⟨rfl, by intro h; exact absurd h (by simp), by intro h; exact absurd h (by simp)⟩
      · rw [handle_new_reading_for_dashboard, if_neg he, if_neg hc,
          if_neg (by simpa using hs)]
        refine ⟨rfl, ?_, ?_⟩
        · intro h
          exact (send_alert_sent_iff env.settingsRes env.transportOk).1 h
        · intro h
          exact (send_alert_sent_iff env.settingsRes env.transportOk).2 h

/-- Witness for C3: in the concrete deliverable cycle the dispatcher is
reached, the reported send equals the transport outcome, and the commit
equation holds. -/
theorem alert_state_commit_spec_witness :
    (handle_new_reading_for_dashboard deliverableEnv spikingHistory
        (fun _ => none) (7/5)).sent = deliverableEnv.transportOk
    ∧ ((handle_new_reading_for_dashboard deliverableEnv spikingHistory
        (fun _ => none) (7/5)).lastSentAfter
      = if (handle_new_reading_for_dashboard deliverableEnv spikingHistory
            (fun _ => none) (7/5)).sent = true
        then some deliverableEnv.now else deliverableEnv.lastSent) :=
  ⟨(alert_state_commit_spec deliverableEnv spikingHistory (fun _ => none)
      (7/5)).2.2 (by rw [handle_deliverable_eval]),
   (alert_state_commit_spec deliverableEnv spikingHistory (fun _ => none)
      (7/5)).1⟩

theorem rmseSqOf_nonneg (history : List HPoint) : 0 ≤ rmseSqOf history := by
  rw [rmseSqOf]
  apply div_nonneg
  · apply List.sum_nonneg
    intro x hx
    obtain ⟨r, hr, rfl⟩ := List.mem_map.mp hx
    exact mul_self_nonneg r
  · exact Nat.cast_nonneg _

theorem marginOf_eq_rmse_div_sqrt (history : List HPoint)
    (hl : 0 < history.length) :
    marginOf history = rmseOf history / Real.sqrt (history.length : Real) := by
  rw [marginOf, rmseOf, marginSqOf, if_pos hl]
  push_cast
  rw [Real.sqrt_div (by exact_mod_cast rmseSqOf_nonneg history)]

/-- C7: on every fitted window the margin carried by the returned quadruple
is the RMSE over the square root of the history count; the margin is never
negative and, at equal RMSE, a window with more points yields a margin no
larger than a window with fewer. -/
theorem forecast_margin_spec :
    ∀ (h1 h2 : List HPoint) (hz : Int),
      3 ≤ h1.length → regressionDenom h1 ≠ 0 → 3 ≤ h2.length →
      Real.sqrt (((linear_forecast h1 hz 60).marginSq : Rat) : Real)
        = rmseOf h1 / Real.sqrt ((h1.length : Nat) : Real)
      ∧ 0 ≤ marginOf h1
      ∧ (rmseOf h1 = rmseOf h2 → h1.length < h2.length →
          marginOf h2 ≤ marginOf h1) := by
  intro h1 h2 hz hl1 hd1 hl2
  have hp1 : 0 < h1.length := by omega
  have hp2 : 0 < h2.length := by omega
  have hm1 := marginOf_eq_rmse_div_sqrt h1 hp1
  have hm2 := marginOf_eq_rmse_div_sqrt h2 hp2
  refine ⟨?_, Real.sqrt_nonneg _, ?_⟩
  · rw [linear_forecast_fitted h1 hz 60 (by omega) hd1]
    exact hm1
  · intro hr hlt
    rw [hm1, hm2, ← hr]
    have hs1 : (0 : Real) < Real.sqrt (h1.length : Real) := by
      apply Real.sqrt_pos.mpr
      exact_mod_cast hp1
    have hs12 : Real.sqrt (h1.length : Real) ≤ Real.sqrt (h2.length : Real) := by
      apply Real.sqrt_le_sqrt
      exact_mod_cast hlt.le
    exact div_le_div_of_nonneg_left (Real.sqrt_nonneg _) hs1 hs12

theorem rmseSqOf_H1fit : rmseSqOf H1fit = 0 := by
  norm_num [rmseSqOf, residualsOf, slopeOf, interceptOf, centeredTimes,
    aqiValues, regressionDenom, H1fit, defaultHPoint]

theorem rmseSqOf_H2fit : rmseSqOf H2fit = 0 := by
  norm_num [rmseSqOf, residualsOf, slopeOf, interceptOf, centeredTimes,
    aqiValues, regressionDenom, H2fit, defaultHPoint]

theorem regressionDenom_H1fit : regressionDenom H1fit = 21600 := by
  norm_num [regressionDenom, centeredTimes, H1fit, defaultHPoint]

/-- Witness for C7: on the three-point and four-point collinear windows,
which share an RMSE of zero, the margin of the larger window is bounded by
the margin of the smaller and the margin is non-negative. -/
theorem forecast_margin_spec_witness :
    marginOf H2fit ≤ marginOf H1fit ∧ 0 ≤ marginOf H1fit := by
  have h := forecast_margin_spec H1fit H2fit 1 (by norm_num [H1fit])
    (by rw [regressionDenom_H1fit]; norm_num) (by norm_num [H2fit])
  refine ⟨h.2.2 ?_ ?_, h.2.1⟩
  · rw [rmseOf, rmseOf, rmseSqOf_H1fit, rmseSqOf_H2fit]
  · norm_num [H1fit, H2fit]

/-- C8: every point of a fitted forecast carries an AQI value clamped into
the 0..500 band, while its error field is exactly the common margin of the
fit, unclamped. -/
theorem forecast_point_clamp_spec :
    ∀ (hist : List HPoint) (hz s : Int) (p : FPoint),
      3 ≤ hist.length → regressionDenom hist ≠ 0 →
      p ∈ (linear_forecast hist hz s).forecast →
      0 ≤ p.aqi ∧ p.aqi ≤ 500
      ∧ p.errorSq = (linear_forecast hist hz s).marginSq
      ∧ p.errorValue = marginOf hist := by
  intro hist hz s p h3 hd hp
  rw [linear_forecast_fitted hist hz s (by omega) hd] at hp ⊢
  simp only [forecastPoints, List.mem_map, List.mem_range] at hp
  obtain ⟨i, hi, rfl⟩ := hp
  refine ⟨le_max_left _ _, ?_, rfl, rfl⟩
  exact max_le (by norm_num) (min_le_left _ _)

theorem forecast_H1fit_eval :
    (linear_forecast H1fit 1 60).forecast = [⟨180, 40, 0⟩] := by
  rw [linear_forecast_fitted H1fit 1 60 (by norm_num [H1fit])
    (by rw [regressionDenom_H1fit]; norm_num)]
  have hsteps : (stepsOf 1 60).toNat = 1 := by decide
  have hm : marginSqOf H1fit = 0 := by
    rw [marginSqOf, if_pos (by norm_num [H1fit]), rmseSqOf_H1fit]
    norm_num
  rw [forecastPoints]
  rw [hsteps, show List.range 1 = [0] from rfl]
  simp only [List.map_cons, List.map_nil, hm]
  norm_num [slopeOf, interceptOf, centeredTimes, aqiValues,
    regressionDenom, H1fit, defaultHPoint, min_def, max_def]

/-- Witness for C8: the single point of the fitted one-step forecast on the
collinear window is within band and carries the margin of the fit. -/
theorem forecast_point_clamp_spec_witness :
    0 ≤ (⟨180, 40, 0⟩ : FPoint).aqi ∧ (⟨180, 40, 0⟩ : FPoint).aqi ≤ 500
    ∧ FPoint.errorValue ⟨180, 40, 0⟩ = marginOf H1fit := by
  have h := forecast_point_clamp_spec H1fit 1 60 ⟨180, 40, 0⟩
    (by norm_num [H1fit]) (by rw [regressionDenom_H1fit]; norm_num)
    (by rw [forecast_H1fit_eval]; exact List.mem_singleton_self _)
  exact ⟨h.1, h.2.1, h.2.2.2⟩

theorem max_one_tdiv_eq_fdiv (a : Int) {s : Int} (hs : 0 < s) :
    max 1 (Int.tdiv a s) = max 1 (Int.fdiv a s) := by
  rcases le_or_lt 0 a with ha | ha
  · rw [Int.fdiv_eq_tdiv ha hs.le]
  · have h1 : Int.tdiv a s ≤ 0 := by
      have hnn := Int.tdiv_nonneg (Int.neg_nonneg.mpr ha.le) hs.le
      rw [Int.neg_tdiv] at hnn
      omega
    have h2 : Int.fdiv a s ≤ 0 := (Int.fdiv_neg' ha hs).le
    rw [max_eq_left (h1.trans (by norm_num)), max_eq_left (h2.trans (by norm_num))]

/-- C9: a fitted forecast with a positive step length has exactly
max(1, floor(horizon times sixty over step)) points, and the point at index
i sits at the last history timestamp plus i plus one steps, hence strictly
after the last history point. -/
theorem forecast_horizon_resolution_spec :
    ∀ (hist : List HPoint) (hz s : Int),
      3 ≤ hist.length → regressionDenom hist ≠ 0 → 0 < s →
      ((linear_forecast hist hz s).forecast.length
        = (max 1 (Int.fdiv (hz * 60) s)).toNat)
      ∧ ∀ (i : Nat) (hi : i < (linear_forecast hist hz s).forecast.length),
          (((linear_forecast hist hz s).forecast.get ⟨i, hi⟩).ts
            = (hist.getLastD defaultHPoint).ts + ((i : Int) + 1) * s)
          ∧ (hist.getLastD defaultHPoint).ts
              < ((linear_forecast hist hz s).forecast.get ⟨i, hi⟩).ts := by
  intro hist hz s h3 hd hs
  have hfit := linear_forecast_fitted hist hz s (by omega) hd
  have hfc : (linear_forecast hist hz s).forecast = forecastPoints hist hz s := by
    rw [hfit]
  constructor
  · rw [hfc, forecastPoints]
    simp only [List.length_map, List.length_range]
    rw [stepsOf, max_one_tdiv_eq_fdiv _ hs]
  · intro i hi
    have hval : ((linear_forecast hist hz s).forecast.get ⟨i, hi⟩)
        = (forecastPoints hist hz s).get
            ⟨i, by rw [← hfc]; exact hi⟩ := by
      apply List.get_of_eq hfc
    have hi2 : i < (stepsOf hz s).toNat := by
      have := hi
      rw [hfc, forecastPoints] at this
      simpa using this
    have hts : ((forecastPoints hist hz s).get
        ⟨i, by rw [← hfc]; exact hi⟩).ts
        = (hist.getLastD defaultHPoint).ts + ((i : Int) + 1) * s := by
      simp [forecastPoints]
    rw [hval, hts]
    refine ⟨rfl, ?_⟩
    have hpos : (0 : Int) < ((i : Int) + 1) * s :=
      mul_pos (by positivity) hs
    omega

/-- Witness for C9: the one-minute horizon with the sixty-second step on the
collinear window yields exactly max(1, floor(60 / 60)) = 1 point. -/
theorem forecast_horizon_resolution_spec_witness :
    (linear_forecast H1fit 1 60).forecast.length
      = (max 1 (Int.fdiv (1 * 60) 60)).toNat :=
  (forecast_horizon_resolution_spec H1fit 1 60 (by norm_num [H1fit])
    (by rw [regressionDenom_H1fit]; norm_num) (by norm_num)).1
